import Mathlib

/-!
# Verification of the "List Your Problems" service (`src/main.py`)

A shallow embedding of the single-file FastAPI service: a SQLite-backed
table of problem entries, a moderation gate calling an external
text-classification service, and four HTTP endpoints
(`add_entry`, `get_all_entries`, `delete_entry`, `get_all_data_Prateek`).

Modelling choices:
* The `problems` table is a list of rows kept in rowid (insertion) order,
  plus the AUTOINCREMENT counter.  `CURRENT_TIMESTAMP` is an abstract
  `Nat` clock value supplied per call.
* The external Mistral call either returns a response string or raises,
  modelled as `Except String String`; the `INSERT` either succeeds or
  raises, modelled as `Option String` (the exception text).  Both
  outcomes are inputs of `add_entry`, so a result that is literally the
  same function of the state for every oracle value faithfully captures
  "the external call is never made".
* A raised `HTTPException status_code detail` is the `httpError`
  constructor of `ApiResult`; a normal JSON body is `ok`.
* `SELECT ... ORDER BY created_at DESC` is embedded as a stable
  insertion sort of the rows (scanned in rowid order) by the relation
  `created_at ≥`, matching SQLite's scan-then-sort evaluation.
* `init_db` guards table creation on `os.path.exists(DB_NAME)`, so the
  store state distinguishes existence of the database file from
  existence of the `problems` table inside it.
-/

namespace Problems

/-- One row of the `problems` table (`CREATE TABLE` in `init_db`). -/
structure Row where
  id : Nat
  problem : String
  name : String
  email : String
  created_at : Nat
  uuid : String
deriving DecidableEq, Repr

/-- The `problems` table: rows in rowid (insertion) order, and the
AUTOINCREMENT counter for the next `id`. -/
structure DB where
  rows : List Row
  nextId : Nat
deriving DecidableEq, Repr

/-- The empty table, as created by `init_db` (AUTOINCREMENT starts at 1). -/
def DB.empty : DB := ⟨[], 1⟩

/-- Request body of `POST /add_entry` (pydantic model `ProblemEntry`). -/
structure ProblemEntry where
  problem : String
  name : String := "Anonymous"
  email : String := ""
deriving DecidableEq, Repr

/-- A JSON body of the shape used by the handlers:
`status` and `message` fields. -/
structure StatusMsg where
  status : String
  message : String
deriving DecidableEq, Repr

/-- Outcome of a handler: a normal JSON value, or a raised
`HTTPException` with status code and detail. -/
inductive ApiResult (α : Type) where
  | ok : α → ApiResult α
  | httpError : Nat → String → ApiResult α
deriving DecidableEq, Repr

/-- Python `str.upper()` as applied to the gate response: upper-case
every character. -/
def pyUpper (s : String) : String := ⟨s.data.map Char.toUpper⟩

/-- Python `str.strip()`: remove leading and trailing whitespace. -/
def pyStrip (s : String) : String :=
  ⟨((s.data.dropWhile Char.isWhitespace).reverse.dropWhile
      Char.isWhitespace).reverse⟩

/-- `POST /add_entry` (`add_entry` in `src/main.py`).

Inputs beyond the request and the current table:
* `uuidStr` — the value of `str(uuid.uuid4())`;
* `now` — the store clock used for `created_at` (`CURRENT_TIMESTAMP`);
* `modOutcome` — result of `get_mistral_response(entry.problem)`:
  `.ok resp` is the returned message content, `.error e` an exception;
* `insertErr` — `none` if the `INSERT`/`commit` succeeds, `some e` if it
  raises with message `e`.

Returns the handler outcome together with the table after the call
(`conn.rollback()` on an exception leaves the table unchanged). -/
def add_entry (entry : ProblemEntry) (uuidStr : String) (now : Nat)
    (modOutcome : Except String String) (insertErr : Option String)
    (db : DB) : ApiResult StatusMsg × DB :=
  if pyStrip entry.problem = "" then
    (.httpError 400 "Problem description cannot be empty", db)
  else
    match modOutcome with
    | .error e => (.httpError 500 ("Database error: " ++ e), db)
    | .ok resp =>
      if pyUpper resp = "YES" then
        match insertErr with
        | some e => (.httpError 500 ("Database error: " ++ e), db)
        | none =>
          (.ok ⟨"success", "Entry added successfully"⟩,
            ⟨db.rows ++ [⟨db.nextId, entry.problem, entry.name,
              entry.email, now, uuidStr⟩], db.nextId + 1⟩)
      else
        (.ok ⟨"error",
          "Entry not added because it was flagged as potentially offensive"⟩,
          db)

/-- `DELETE /delete_entry/{uuid}` (`delete_entry` in `src/main.py`):
`DELETE FROM problems WHERE uuid = ?`, then commit and report success. -/
def delete_entry (tok : String) (db : DB) : ApiResult StatusMsg × DB :=
  (.ok ⟨"success", "Entry deleted successfully"⟩,
    ⟨db.rows.filter (fun r => r.uuid ≠ tok), db.nextId⟩)

/-- The projection `SELECT id, problem, name, created_at` used by
`get_all_entries`. -/
structure EntryView where
  id : Nat
  problem : String
  name : String
  created_at : Nat
deriving DecidableEq, Repr

/-- Project a row onto the four selected columns. -/
def rowView (r : Row) : EntryView :=
  ⟨r.id, r.problem, r.name, r.created_at⟩

/-- The `ORDER BY created_at DESC` comparison: `a` may precede `b`
when `a.created_at ≥ b.created_at`. -/
def createdDesc (a b : Row) : Prop := b.created_at ≤ a.created_at

instance : DecidableRel createdDesc := fun a b =>
  inferInstanceAs (Decidable (b.created_at ≤ a.created_at))

instance : IsTotal Row createdDesc :=
  ⟨fun a b => (Nat.le_total a.created_at b.created_at).symm⟩

instance : IsTrans Row createdDesc :=
  ⟨fun _ _ _ h h' => Nat.le_trans h' h⟩

/-- `GET /get_all_entries` (`get_all_entries` in `src/main.py`):
scan the table in rowid order, sort by `created_at` descending
(stably), and project each row onto the four selected columns. -/
def get_all_entries (db : DB) : List EntryView :=
  (db.rows.insertionSort createdDesc).map rowView

/-- State of the store as seen by `init_db`: whether the database file
`problems.db` exists, whether the `problems` table exists inside it,
and the table contents. -/
structure StoreState where
  fileExists : Bool
  tableExists : Bool
  db : DB
deriving DecidableEq, Repr

/-- `init_db` in `src/main.py`: if `os.path.exists(DB_NAME)` is false,
connect (creating the file) and run `CREATE TABLE IF NOT EXISTS
problems (...)`; otherwise do nothing. -/
def init_db (s : StoreState) : StoreState :=
  if s.fileExists then s
  else ⟨true, true, DB.empty⟩

/-- Per-column declaration of the `CREATE TABLE` statement in
`init_db`. -/
structure ColumnDef where
  colName : String
  primaryKeyAutoincrement : Bool := false
  notNull : Bool := false
  uniqueConstraint : Bool := false
  defaultVal : Option String := Option.none
deriving DecidableEq, Repr

/-- The schema of the `problems` table, column by column, as written in
`init_db`. -/
def problemsSchema : List ColumnDef :=
  [⟨"id", true, false, false, Option.none⟩,
   ⟨"problem", false, true, false, Option.none⟩,
   ⟨"name", false, false, false, Option.some "Anonymous"⟩,
   ⟨"email", false, false, false, Option.some ""⟩,
   ⟨"created_at", false, false, false, Option.some "CURRENT_TIMESTAMP"⟩,
   ⟨"uuid", false, true, false, Option.none⟩]

/-- The `ORDER BY created_at DESC` comparison on projected rows. -/
def createdDescView (a b : EntryView) : Prop := b.created_at ≤ a.created_at

/-- If no row of `l` carries uuid `tok`, deleting by `tok` keeps every
row. -/
theorem filter_ne_uuid_of_not_mem (tok : String) (l : List Row)
    (h : tok ∉ l.map Row.uuid) :
    l.filter (fun r => r.uuid ≠ tok) = l := by
  induction l with
  | nil => rfl
  | cons r l ih =>
    rw [List.map_cons, List.mem_cons] at h
    push_neg at h
    rw [List.filter_cons, if_pos (by simpa using fun h' => h.1 h'.symm),
      ih h.2]

/-- With pairwise-distinct uuids, deleting by any token removes at most
one row. -/
theorem length_le_filter_ne_uuid (tok : String) (l : List Row)
    (h : (l.map Row.uuid).Nodup) :
    l.length ≤ (l.filter (fun r => r.uuid ≠ tok)).length + 1 := by
  induction l with
  | nil => simp
  | cons r l ih =>
    rw [List.map_cons, List.nodup_cons] at h
    by_cases hr : r.uuid = tok
    · rw [List.filter_cons, if_neg (by simp [hr]),
        filter_ne_uuid_of_not_mem tok l (hr ▸ h.1)]
      simp
    · rw [List.filter_cons, if_pos (by simpa using hr)]
      simpa using Nat.succ_le_succ (ih h.2)

end Problems

namespace Problems

/-- C1.  With non-empty (after stripping) text and a response `resp`
from the external service, `add_entry` appends exactly the new row iff
the upper-cased response is the literal `"YES"`; for any other response
value the table is returned unchanged (the submission is rejected). -/
theorem add_entry_row_stored_iff_yes (entry : ProblemEntry)
    (uuidStr : String) (now : Nat) (resp : String) (db : DB)
    (hne : pyStrip entry.problem ≠ "") :
    ((add_entry entry uuidStr now (.ok resp) Option.none db).2.rows =
        db.rows ++ [⟨db.nextId, entry.problem, entry.name, entry.email,
          now, uuidStr⟩] ↔
      pyUpper resp = "YES") ∧
    (pyUpper resp ≠ "YES" →
      (add_entry entry uuidStr now (.ok resp) Option.none db).2 = db) := by
  by_cases hyes : pyUpper resp = "YES" <;>
    simp [add_entry, hne, hyes]

/-- Witness for `add_entry_row_stored_iff_yes` at a concrete accepted
submission. -/
theorem add_entry_row_stored_iff_yes_witness :
    pyStrip "hello" ≠ "" ∧
    (((add_entry ⟨"hello", "n", ""⟩ "u" 7 (.ok "yes") Option.none
          DB.empty).2.rows =
        DB.empty.rows ++ [⟨DB.empty.nextId, "hello", "n", "", 7, "u"⟩] ↔
      pyUpper "yes" = "YES") ∧
    (pyUpper "yes" ≠ "YES" →
      (add_entry ⟨"hello", "n", ""⟩ "u" 7 (.ok "yes") Option.none
          DB.empty).2 = DB.empty)) :=
  ⟨by decide,
    add_entry_row_stored_iff_yes ⟨"hello", "n", ""⟩ "u" 7 "yes" DB.empty
      (by decide)⟩

/-- C2.  A submission the gate classifies REJECT produces the normal
(non-exception) JSON body `status = "error"` with the fixed rejection
message, and the table is unchanged — distinguishable from the 400/500
`httpError` outcomes of validation and infrastructure failures. -/
theorem add_entry_reject_outcome (entry : ProblemEntry) (uuidStr : String)
    (now : Nat) (resp : String) (insertErr : Option String) (db : DB)
    (hne : pyStrip entry.problem ≠ "") (hno : pyUpper resp ≠ "YES") :
    add_entry entry uuidStr now (.ok resp) insertErr db =
      (.ok ⟨"error",
        "Entry not added because it was flagged as potentially offensive"⟩,
        db) := by
  simp [add_entry, hne, hno]

/-- Witness for `add_entry_reject_outcome` at a concrete rejected
submission. -/
theorem add_entry_reject_outcome_witness :
    pyStrip "hi" ≠ "" ∧ pyUpper "no" ≠ "YES" ∧
    add_entry ⟨"hi", "n", ""⟩ "u" 7 (.ok "no") Option.none DB.empty =
      (.ok ⟨"error",
        "Entry not added because it was flagged as potentially offensive"⟩,
        DB.empty) :=
  ⟨by decide, by decide,
    add_entry_reject_outcome ⟨"hi", "n", ""⟩ "u" 7 "no" Option.none
      DB.empty (by decide) (by decide)⟩

/-- C3.  Empty or whitespace-only text fails with HTTP 400 and the
table unchanged, for EVERY moderation outcome and insert outcome: the
result is a constant function of those oracles, so the moderation gate
is never consulted on such input. -/
theorem add_entry_empty_input_400 (entry : ProblemEntry)
    (h : pyStrip entry.problem = "") (uuidStr : String) (now : Nat)
    (modOutcome : Except String String) (insertErr : Option String)
    (db : DB) :
    add_entry entry uuidStr now modOutcome insertErr db =
      (.httpError 400 "Problem description cannot be empty", db) := by
  simp [add_entry, h]

/-- Witness for `add_entry_empty_input_400` on whitespace-only text
(with a moderation oracle that would error if it were consulted). -/
theorem add_entry_empty_input_400_witness :
    pyStrip "   " = "" ∧
    add_entry ⟨"   ", "n", ""⟩ "u" 7 (.error "unreached") Option.none
        DB.empty =
      (.httpError 400 "Problem description cannot be empty", DB.empty) :=
  ⟨by decide,
    add_entry_empty_input_400 ⟨"   ", "n", ""⟩ (by decide) "u" 7
      (.error "unreached") Option.none DB.empty⟩

/-- C4.  If the external moderation call raises, `add_entry` raises
HTTP 500 (a service-level failure, not a silent accept) and the table
is unchanged: the submission is not stored. -/
theorem add_entry_moderation_failure_500 (entry : ProblemEntry)
    (uuidStr : String) (now : Nat) (e : String)
    (insertErr : Option String) (db : DB)
    (hne : pyStrip entry.problem ≠ "") :
    add_entry entry uuidStr now (.error e) insertErr db =
      (.httpError 500 ("Database error: " ++ e), db) := by
  simp [add_entry, hne]

/-- Witness for `add_entry_moderation_failure_500` at a concrete failing
external call. -/
theorem add_entry_moderation_failure_500_witness :
    pyStrip "hi" ≠ "" ∧
    add_entry ⟨"hi", "n", ""⟩ "u" 7 (.error "timeout") Option.none
        DB.empty =
      (.httpError 500 ("Database error: " ++ "timeout"), DB.empty) :=
  ⟨by decide,
    add_entry_moderation_failure_500 ⟨"hi", "n", ""⟩ "u" 7 "timeout"
      Option.none DB.empty (by decide)⟩

/-- C5.  If the `INSERT` raises on an accepted submission, `add_entry`
rolls back and raises HTTP 500: the returned table is exactly the table
before the call, so no partial entry is ever visible to readers. -/
theorem add_entry_insert_failure_rollback (entry : ProblemEntry)
    (uuidStr : String) (now : Nat) (resp : String) (e : String) (db : DB)
    (hne : pyStrip entry.problem ≠ "") (hyes : pyUpper resp = "YES") :
    add_entry entry uuidStr now (.ok resp) (Option.some e) db =
      (.httpError 500 ("Database error: " ++ e), db) := by
  simp [add_entry, hne, hyes]

/-- Witness for `add_entry_insert_failure_rollback` at a concrete
failing insert. -/
theorem add_entry_insert_failure_rollback_witness :
    pyStrip "hi" ≠ "" ∧ pyUpper "yes" = "YES" ∧
    add_entry ⟨"hi", "n", ""⟩ "u" 7 (.ok "yes") (Option.some "disk full")
        DB.empty =
      (.httpError 500 ("Database error: " ++ "disk full"), DB.empty) :=
  ⟨by decide, by decide,
    add_entry_insert_failure_rollback ⟨"hi", "n", ""⟩ "u" 7 "yes"
      "disk full" DB.empty (by decide) (by decide)⟩

/-- C6 (counterexample).  Two accepted submissions in the same clock
second: A (id 1) then B (id 2), both with `created_at = 5`.  The query
orders only by `created_at`, so the result is `[A, B]` — entry B,
inserted after A, is NOT placed before A, and the result is not
strictly ordered (the two timestamps are equal). -/
theorem get_all_entries_tie_counterexample :
    get_all_entries
        (add_entry ⟨"B", "Bob", ""⟩ "u2" 5 (.ok "YES") Option.none
          (add_entry ⟨"A", "Alice", ""⟩ "u1" 5 (.ok "YES") Option.none
            DB.empty).2).2 =
      [⟨1, "A", "Alice", 5⟩, ⟨2, "B", "Bob", 5⟩] ∧
    (⟨1, "A", "Alice", 5⟩ : EntryView) ≠ ⟨2, "B", "Bob", 5⟩ := by
  decide

/-- C6 (amended).  `get_all_entries` returns exactly the projections
`{id, problem, name, created_at}` of the stored rows (a permutation of
them), sorted by `created_at` in non-increasing — not necessarily
strict — order; a later insert precedes an earlier one only when its
`created_at` is strictly greater. -/
theorem get_all_entries_sorted_perm (db : DB) :
    List.Sorted createdDescView (get_all_entries db) ∧
    (get_all_entries db).Perm (db.rows.map rowView) := by
  constructor
  · exact List.Pairwise.map rowView (fun a b hab => hab)
      (List.sorted_insertionSort createdDesc db.rows)
  · exact (List.perm_insertionSort createdDesc db.rows).map rowView

/-- C7.  `delete_entry` always reports success; under the uuid
uniqueness invariant it removes at most one row (zero or one), and when
no row matches the table is unchanged (idempotent delete, no 404). -/
theorem delete_entry_spec (tok : String) (db : DB)
    (h : (db.rows.map Row.uuid).Nodup) :
    (delete_entry tok db).1 =
      .ok ⟨"success", "Entry deleted successfully"⟩ ∧
    db.rows.length ≤ (delete_entry tok db).2.rows.length + 1 ∧
    (delete_entry tok db).2.rows.length ≤ db.rows.length ∧
    (tok ∉ db.rows.map Row.uuid → (delete_entry tok db).2 = db) := by
  refine ⟨rfl, length_le_filter_ne_uuid tok db.rows h,
    List.length_filter_le _ _, fun hnm => ?_⟩
  show (⟨db.rows.filter (fun r => r.uuid ≠ tok), db.nextId⟩ : DB) = db
  rw [filter_ne_uuid_of_not_mem tok db.rows hnm]

/-- Witness for `delete_entry_spec`: deleting a token absent from a
one-row table. -/
theorem delete_entry_spec_witness :
    ((⟨[⟨1, "A", "Alice", "", 5, "u1"⟩], 2⟩ : DB).rows.map
        Row.uuid).Nodup ∧
    ((delete_entry "zzz" ⟨[⟨1, "A", "Alice", "", 5, "u1"⟩], 2⟩).1 =
      .ok ⟨"success", "Entry deleted successfully"⟩ ∧
    (⟨[⟨1, "A", "Alice", "", 5, "u1"⟩], 2⟩ : DB).rows.length ≤
      (delete_entry "zzz"
        ⟨[⟨1, "A", "Alice", "", 5, "u1"⟩], 2⟩).2.rows.length + 1 ∧
    (delete_entry "zzz"
        ⟨[⟨1, "A", "Alice", "", 5, "u1"⟩], 2⟩).2.rows.length ≤
      (⟨[⟨1, "A", "Alice", "", 5, "u1"⟩], 2⟩ : DB).rows.length ∧
    ("zzz" ∉ (⟨[⟨1, "A", "Alice", "", 5, "u1"⟩], 2⟩ : DB).rows.map
        Row.uuid →
      (delete_entry "zzz" ⟨[⟨1, "A", "Alice", "", 5, "u1"⟩], 2⟩).2 =
        ⟨[⟨1, "A", "Alice", "", 5, "u1"⟩], 2⟩)) :=
  ⟨by decide, delete_entry_spec "zzz"
    ⟨[⟨1, "A", "Alice", "", 5, "u1"⟩], 2⟩ (by decide)⟩

/-- C8.  When the freshly generated uuid differs from every stored one
(what random generation is relied upon to provide), the accepted insert
preserves pairwise-distinct uuids across the table; and the schema
places no UNIQUE or PRIMARY KEY constraint on the `uuid` column, so
uniqueness is not store-enforced. -/
theorem add_entry_uuid_unique_no_constraint (entry : ProblemEntry)
    (uuidStr : String) (now : Nat) (resp : String) (db : DB)
    (hne : pyStrip entry.problem ≠ "") (hyes : pyUpper resp = "YES")
    (hnodup : (db.rows.map Row.uuid).Nodup)
    (hfresh : uuidStr ∉ db.rows.map Row.uuid) :
    (((add_entry entry uuidStr now (.ok resp) Option.none
        db).2.rows.map Row.uuid).Nodup) ∧
    (∀ c ∈ problemsSchema, c.colName = "uuid" →
      c.uniqueConstraint = false ∧ c.primaryKeyAutoincrement = false) := by
  constructor
  · have hrows : (add_entry entry uuidStr now (.ok resp) Option.none
        db).2.rows = db.rows ++ [⟨db.nextId, entry.problem, entry.name,
          entry.email, now, uuidStr⟩] := by
      simp [add_entry, hne, hyes]
    rw [hrows, List.map_append, List.nodup_append]
    refine ⟨hnodup, List.nodup_singleton uuidStr, fun a ha h => ?_⟩
    have h' : a = uuidStr := List.mem_singleton.mp h
    exact hfresh (h' ▸ ha)
  · decide

/-- Witness for `add_entry_uuid_unique_no_constraint`: a fresh uuid
added to a one-row table. -/
theorem add_entry_uuid_unique_no_constraint_witness :
    pyStrip "hi" ≠ "" ∧ pyUpper "YES" = "YES" ∧
    (((⟨[⟨1, "A", "Alice", "", 5, "u1"⟩], 2⟩ : DB).rows.map
        Row.uuid).Nodup) ∧
    ("u2" ∉ (⟨[⟨1, "A", "Alice", "", 5, "u1"⟩], 2⟩ : DB).rows.map
        Row.uuid) ∧
    ((((add_entry ⟨"hi", "n", ""⟩ "u2" 9 (.ok "YES") Option.none
        ⟨[⟨1, "A", "Alice", "", 5, "u1"⟩], 2⟩).2.rows.map
          Row.uuid).Nodup) ∧
    (∀ c ∈ problemsSchema, c.colName = "uuid" →
      c.uniqueConstraint = false ∧
        c.primaryKeyAutoincrement = false)) :=
  ⟨by decide, by decide, by decide, by decide,
    add_entry_uuid_unique_no_constraint ⟨"hi", "n", ""⟩ "u2" 9 "YES"
      ⟨[⟨1, "A", "Alice", "", 5, "u1"⟩], 2⟩ (by decide) (by decide)
      (by decide) (by decide)⟩

/-- C9 (counterexample).  A state where the database file exists but
the `problems` table is absent (the file can be created by any endpoint
connecting before initialization).  `init_db` checks only file
existence, returns the state unchanged, and the table remains absent —
refuting "creates the backing table if it is absent". -/
theorem init_db_counterexample :
    (⟨true, false, DB.empty⟩ : StoreState).tableExists = false ∧
    init_db ⟨true, false, DB.empty⟩ = ⟨true, false, DB.empty⟩ := by
  decide

/-- C9 (amended).  `init_db` creates the database file together with
the table when the FILE is absent; it is idempotent and leaves any
state whose file already exists — in particular an already-initialized
store — unchanged.  It does not create the table when the file exists
without it. -/
theorem init_db_amended (s : StoreState) :
    init_db (init_db s) = init_db s ∧
    (s.fileExists = false → init_db s = ⟨true, true, DB.empty⟩) ∧
    (s.fileExists = true → init_db s = s) := by
  by_cases hf : s.fileExists <;> simp [init_db, hf]

/-- Witness for `init_db_amended` at a state with no database file. -/
theorem init_db_amended_witness :
    init_db ⟨false, false, DB.empty⟩ = ⟨true, true, DB.empty⟩ :=
  (init_db_amended ⟨false, false, DB.empty⟩).2.1 rfl

/-- C10.  On the accept path the stored row carries the problem text
exactly as submitted: stripping is applied only in the emptiness check,
so leading and trailing whitespace survives into the table. -/
theorem add_entry_stores_raw_text (entry : ProblemEntry)
    (uuidStr : String) (now : Nat) (resp : String) (db : DB)
    (hne : pyStrip entry.problem ≠ "") (hyes : pyUpper resp = "YES") :
    (add_entry entry uuidStr now (.ok resp) Option.none db).2.rows =
      db.rows ++ [⟨db.nextId, entry.problem, entry.name, entry.email,
        now, uuidStr⟩] := by
  simp [add_entry, hne, hyes]

/-- Witness for `add_entry_stores_raw_text`: text with surrounding
whitespace is stored raw, differing from its stripped form. -/
theorem add_entry_stores_raw_text_witness :
    pyStrip "  hi  " ≠ "" ∧ pyUpper "YES" = "YES" ∧
    (add_entry ⟨"  hi  ", "n", ""⟩ "u" 3 (.ok "YES") Option.none
        DB.empty).2.rows =
      DB.empty.rows ++ [⟨DB.empty.nextId, "  hi  ", "n", "", 3, "u"⟩] ∧
    "  hi  " ≠ pyStrip "  hi  " :=
  ⟨by decide, by decide,
    add_entry_stores_raw_text ⟨"  hi  ", "n", ""⟩ "u" 3 "YES" DB.empty
      (by decide) (by decide), by decide⟩

end Problems
